import Mathlib

/-!
Verification of the constraint-builder core of the Organic Scheduler
(`Optimizator.c`, `Frame.c`, `Network.c`) as a shallow embedding in Lean.

Solver assertions are embedded semantically: each C builder function that
asserts a formula over solver variables becomes a Lean function from the
integer values of those variables to `Prop`, mirroring the formula the C
code hands to the backend.  A `pathSel` flag mirrors the C null test
`path_selector != NULL` (resp. `gurobi_path_selector != NULL`).  In the
ILP (gurobi) embeddings the auxiliary binary variables produced by
`GRBaddgenconstrIndicator` / `GRBaddgenconstrOr` are projected away: a
block that creates binaries `b1, b2`, forces `bOr = OR(b1, b2)` with
`bOr` fixed to 1, and attaches `bi = 1 -> Ci`, denotes the disjunction
`C1 OR C2`, which is what the embedding states directly.

All C `int` / `long long int` quantities are modelled as `Int`; the
programs involved perform no arithmetic that can overflow 64-bit in the
regimes the claims quantify over, and the C types are 32/64-bit signed,
so `Int` with no reduction is the faithful reading of the value-level
semantics the claims are about.
-/

namespace OrganicScheduler

/-! ## Error codes (Frame.h, Network.h) -/

def NULL_OFFSET_POINTER : Int := -21
def NUM_INSTANCES_NOT_NATURAL : Int := -22
def NUM_REPLICAS_NEGATIVE : Int := -23
def TRANSMISSION_TIME_NOT_NATURAL : Int := -26
def NUM_INSTANCES_OUT_RANGE : Int := -27
def NUM_REPLICAS_OUT_RANGE : Int := -28
def PATH_DOES_NOT_EXIST : Int := -225

/-! ## Optimizator.c : interval admissibility and constraint emission -/

/-- Embedding of `offsets_share_interval` (Optimizator.c, lines 225-251).
With `min_k = period_k * instance_k + starting_k + 1` and
`max_k = period_k * instance_k + deadline_k + 1` (the C local variables
`min1`, `max1`, `min2`, `max2`, inlined here), the function returns 1 when
`(min1 <= min2 && min2 < max1) || (min2 <= min1 && min1 < max2)` and 0
otherwise, exactly as the C `if`/`return`. -/
def offsets_share_interval (p1 s1 d1 i1 p2 s2 d2 i2 : Int) : Int :=
  if (p1 * i1 + s1 + 1 ≤ p2 * i2 + s2 + 1 ∧ p2 * i2 + s2 + 1 < p1 * i1 + d1 + 1) ∨
     (p2 * i2 + s2 + 1 ≤ p1 * i1 + s1 + 1 ∧ p1 * i1 + s1 + 1 < p2 * i2 + d2 + 1) then
    1
  else
    0

/-- Embedding of the z3 branch of `avoid_intersection` (Optimizator.c,
lines 270-375).  The asserted formula is
`(o1 + distance1 <= o2) OR (o2 + distance2 <= o1)`, and when
`path_selector != NULL` the code ORs in the single extra disjunct
`o1 = 0` (the C builds `z3_eq` from `z3_offset1`). -/
def avoid_intersection_z3 (pathSel : Bool) (o1 o2 distance1 distance2 : Int) : Prop :=
  (o1 + distance1 ≤ o2 ∨ o2 + distance2 ≤ o1) ∨ (pathSel = true ∧ o1 = 0)

/-- Embedding of the gurobi branch of `avoid_intersection`.  Both
distance indicators carry the link-distance variable `Dl`
(`gurobi_link_distance[get_offset_link(offset1_pt)]`):
`o1 - o2 + Dl <= -distance1` and `o2 - o1 + Dl <= -distance2`.  When
`gurobi_path_selector != NULL` a third OR branch asserts
`o2 + o1 = 0` (the indicator added with `values[1] = 1.0`). -/
def avoid_intersection_gurobi (pathSel : Bool) (o1 o2 distance1 distance2 Dl : Int) : Prop :=
  (o1 + distance1 + Dl ≤ o2 ∨ o2 + distance2 + Dl ≤ o1) ∨ (pathSel = true ∧ o2 + o1 = 0)

/-- The (instance, replica)-pair body of `contention_free` (Optimizator.c,
lines 1011-1062): when the previous frame owns an offset on the shared
link, the non-overlap constraint is emitted iff
`offsets_share_interval(...) == 1`, with `distance1 = timeslots` of the
current offset and `distance2 = timeslots` of the previous offset. -/
def contention_pair_constraints (pathSel : Bool)
    (p1 s1 d1 ts1 i1 p2 s2 d2 ts2 i2 o1 o2 : Int) : List Prop :=
  if offsets_share_interval p1 s1 d1 i1 p2 s2 d2 i2 = 1 then
    [avoid_intersection_z3 pathSel o1 o2 ts1 ts2]
  else
    []

/-- Embedding of the z3 branch of `set_offset_range` (Optimizator.c, lines
150-209).  Two assertions: `offset > min` — ORed with `offset = 0` when
`path_selector != NULL` — and `offset <= max`. -/
def set_offset_range_z3 (pathSel : Bool) (mn mx o : Int) : Prop :=
  (o > mn ∨ (pathSel = true ∧ o = 0)) ∧ o ≤ mx

/-- Embedding of the gurobi branch of `set_offset_range`: the variable is
created by `GRBaddvar` with lower bound `minimum_posible` — the constant 1
when `path_selector == NULL`, else 0 — and upper bound `max`.  The `min`
argument is not used by this branch (kept here for signature fidelity). -/
def set_offset_range_gurobi (pathSel : Bool) (_mn mx o : Int) : Prop :=
  (if pathSel then (0 : Int) else 1) ≤ o ∧ o ≤ mx

/-- The minimum transmission time `create_offset_variables` (Optimizator.c,
lines 763-810) passes to `set_offset_range`:
`get_starting(frame) + get_period(frame) * instance`. -/
def offset_min_time (starting period inst : Int) : Int :=
  starting + period * inst

/-- The maximum transmission time `create_offset_variables` passes to
`set_offset_range`:
`get_deadline(frame) - get_timeslot_size(offset) + get_period(frame) * instance`. -/
def offset_max_time (deadline timeslots period inst : Int) : Int :=
  deadline - timeslots + period * inst

/-- Embedding of the z3 branch of `set_fixed_distance` (Optimizator.c,
lines 71-135).  The base formula is `offset2 = offset1 + distance`; when
`path_selector != NULL` it is wrapped as
`ite(offset1 = 0, offset2 = 0, offset2 = offset1 + distance)`. -/
def set_fixed_distance_z3 (pathSel : Bool) (o1 o2 distance : Int) : Prop :=
  if pathSel = true ∧ o1 = 0 then o2 = 0 else o2 = o1 + distance

/-- The instance/replica linkage emitted by `create_offset_variables`: for
`(inst, repl) != (0, 0)` it calls
`set_fixed_distance(offset, 0, 0, offset, inst, repl, period * inst)`,
with `o1` the value of `O[f,l,0,0]` and `o2` the value of `O[f,l,inst,repl]`;
for `(0, 0)` nothing is emitted. -/
def create_offset_linkage (pathSel : Bool) (period i r o00 oir : Int) : Prop :=
  if i ≠ 0 ∨ r ≠ 0 then set_fixed_distance_z3 pathSel o00 oir (period * i) else True

/-- Embedding of the z3 branch of `set_minimum_distance` (Optimizator.c,
lines 506-567): `offset1 + distance <= offset2` (`Z3_mk_le`), ORed with
`path_selector[frame][receiver][path] = 0` when `path_selector != NULL`
(`xsel` is the value of that selector variable). -/
def set_minimum_distance_z3 (pathSel : Bool) (o1 o2 distance xsel : Int) : Prop :=
  o1 + distance ≤ o2 ∨ (pathSel = true ∧ xsel = 0)

/-- Embedding of the gurobi branch of `set_minimum_distance`: the linear
constraint `offset2 - offset1 - Df >= distance + 1` over
`[offset2, offset1, gurobi_frame_distance[frame]]` with coefficients
`{1, -1, -1}`, added directly when `gurobi_path_selector == NULL` and as
an indicator guarded by `xsel = 1` otherwise. -/
def set_minimum_distance_gurobi (pathSel : Bool) (o1 o2 Df distance xsel : Int) : Prop :=
  (pathSel = false → o2 - o1 - Df ≥ distance + 1) ∧
  (pathSel = true → (xsel = 1 → o2 - o1 - Df ≥ distance + 1))

/-- The distance `frame_path_dependent` (Optimizator.c, lines 1070-1107)
passes to `set_minimum_distance` for a consecutive link pair:
`get_timeslot_size(offset) + get_switch_minimum_time()`. -/
def frame_path_dependent_distance (timeslots swmin : Int) : Int :=
  timeslots + swmin

/-- Embedding of the z3 branch of `set_maximum_distance` (Optimizator.c,
lines 394-487): `offset1 + distance >= offset2` (`Z3_mk_ge`). -/
def set_maximum_distance_z3 (o1 o2 distance : Int) : Prop :=
  o1 + distance ≥ o2

/-- Embedding of the gurobi branch of `set_maximum_distance`: three linear
constraints — `offset2 - offset1 <= distance`, `offset1 - Df >= starting`
and (in the `gurobi_path_selector == NULL` branch, after `values[1] = 1.0`)
`offset2 + Df <= deadline`; in the path-selector branch they are indicator
constraints guarded by `xsel = 1` and the third keeps coefficient `-1` on
`Df`, giving `offset2 - Df <= deadline`. -/
def set_maximum_distance_gurobi (pathSel : Bool)
    (xsel o1 o2 Df distance starting deadline : Int) : Prop :=
  (pathSel = false → (o2 - o1 ≤ distance ∧ o1 - Df ≥ starting ∧ o2 + Df ≤ deadline)) ∧
  (pathSel = true →
    ((xsel = 1 → o2 - o1 ≤ distance) ∧ (xsel = 1 → o1 - Df ≥ starting) ∧
     (xsel = 1 → o2 - Df ≤ deadline)))

/-- The distance `frame_end_to_end_delay` (Optimizator.c, lines 1115-1154)
passes to `set_maximum_distance`:
`get_end_to_end_delay(frame) - get_timeslot_size(last_offset)`. -/
def frame_end_to_end_distance (delay timeslots_last : Int) : Int :=
  delay - timeslots_last

/-- The claimed (spec-worded) extension of the pairwise non-overlap
assertion under path selection, for refinement comparison with the code's
`avoid_intersection`: the base disjunction ORed with BOTH `o1 = 0` and
`o2 = 0`. -/
def avoid_intersection_claimed (o1 o2 distance1 distance2 : Int) : Prop :=
  (o1 + distance1 ≤ o2 ∨ o2 + distance2 ≤ o1) ∨ o1 = 0 ∨ o2 = 0

/-- The claimed (spec-worded) offset range of C2, for refinement
comparison: `[starting + i * period + 1, deadline - timeslots + i * period]`. -/
def offset_range_claimed (starting period deadline timeslots i o : Int) : Prop :=
  starting + i * period + 1 ≤ o ∧ o ≤ deadline - timeslots + i * period

/-! ## Optimizator.c : distance variables (`initialize_distances`) -/

/-- One distance variable as processed by the distance initializer
(`initialize_distances`, Optimizator.c, lines 610-650): the index stored
into `gurobi_frame_distance` / `gurobi_link_distance` (the value of
`gurobi_var_counter` at recording time), the true Gurobi column index of
the variable the matching `GRBaddvar` created (the number of variables
added to the model before it), the objective coefficient and upper bound
passed to `GRBaddvar`, and the column index targeted by the emitted
`GRBaddconstr(variables[0] * 1.0 = 0)` equality — `none` when no
equality is emitted. -/
structure DistVarRecord where
  recordedIdx : Int
  trueIdx : Int
  objCoeff : ℚ
  varUpperBound : Int
  eqTarget : Option Int
deriving DecidableEq

/-- One loop of `initialize_distances` over the iteration indices `its`
(frames, resp. links), threading the code's `gurobi_var_counter` (`vc`)
and the true number of Gurobi columns in the model (`nv`).  Per
iteration, faithful to the C: `GRBaddvar` creates the variable (true
column `nv`), the current counter value is recorded as the variable's
index, the counter is incremented, and when `optimization == 0` a
`GRBaddconstr` equality targeting the recorded index is emitted,
followed by a further `gurobi_var_counter++` (Optimizator.c, lines 633
and 645) although `GRBaddconstr` adds a constraint, not a variable. -/
def dist_loop (optimization : Int) (w : ℚ) (ub : Nat → Int) :
    List Nat → Int → Int → List DistVarRecord × Int × Int
  | [], vc, nv => ([], vc, nv)
  | it :: its, vc, nv =>
    let rec1 : DistVarRecord :=
      { recordedIdx := vc
        trueIdx := nv
        objCoeff := w
        varUpperBound := ub it
        eqTarget := if optimization = 0 then some vc else none }
    let vc2 := if optimization = 0 then vc + 2 else vc + 1
    let rest := dist_loop optimization w ub its vc2 (nv + 1)
    (rec1 :: rest.1, rest.2)

/-- Embedding of `initialize_distances` (Optimizator.c, lines 610-650):
if `optimization == 0` both weights are overwritten with 0 before any
variable is created; every frame gets a distance variable with objective
coefficient `weight_frame` and upper bound `end_to_end(frame)`, then
every link one with coefficient `weight_link` and upper bound
`hyper_period`, each with the `= 0` equality exactly when
`optimization == 0` and with the counter behaviour of `dist_loop`.
`vc0` is `gurobi_var_counter` at entry and `nv0` the number of Gurobi
variables already in the model; the driver calls the function after
`create_offset_variables`, whose gurobi emissions increment the counter
exactly once per `GRBaddvar`, so at entry `vc0 = nv0`. -/
def init_distances (optimization : Int) (weight_frame weight_link : ℚ)
    (num_frames num_links : Nat) (end_to_end : Nat → Int) (hyper_period : Int)
    (vc0 nv0 : Int) : List DistVarRecord × List DistVarRecord :=
  let wf := if optimization = 0 then 0 else weight_frame
  let wl := if optimization = 0 then 0 else weight_link
  let frames := dist_loop optimization wf end_to_end (List.range num_frames) vc0 nv0
  let links := dist_loop optimization wl (fun _ => hyper_period) (List.range num_links)
    frames.2.1 frames.2.2
  (frames.1, links.1)

/-! ## Network.c : the path table -/

/-- The path table state of Network.c: `number_end_systems`,
`number_switches`, the `end_systems_hash` array (node id to dense
position), and `paths[sender_pos].receivers[receiver_pos].paths` as a
list of paths, each path being its list of link ids (`Path.path` with
`Path.length` its length). -/
structure PathStore where
  numEndSystems : Int
  numSwitches : Int
  hash : Int → Nat
  recv : Nat → Nat → List (List Int)

/-- Embedding of `get_path` (Network.c, lines 889-907), transcribed
verbatim including its two anomalies: the range test on the ids, then the
comparison `num_paths >= path_id` (not `path_id >= num_paths`) returning
NULL, and finally the access
`paths[sender_pos].receivers[sender_pos].paths[path_id]` — note
`sender_pos` on the receiver axis.  That access is out of bounds of the
`(sender, receiver)` path array in C (undefined behaviour); it is
modelled with the partial lookup `List.get?`, which yields `none` out of
range. -/
def get_path (st : PathStore) (sender_id receiver_id path_id : Int) : Option (List Int) :=
  if sender_id < 0 ∨ sender_id ≥ st.numEndSystems ∨
     receiver_id < 0 ∨ receiver_id ≥ st.numEndSystems then
    none
  else if ((st.recv (st.hash sender_id) (st.hash receiver_id)).length : Int) ≥ path_id then
    none
  else
    (st.recv (st.hash sender_id) (st.hash sender_id)).get? path_id.toNat

/-- Embedding of `add_path` (Network.c, lines 918-944): after the range
check on the ids (against `number_end_systems + number_switches`) and
`len_path <= 0`, the path is appended to
`paths[sender_pos].receivers[receiver_pos].paths`. -/
def add_path (st : PathStore) (sender_id receiver_id : Int) (path : List Int) :
    Int × PathStore :=
  if sender_id < 0 ∨ sender_id ≥ st.numEndSystems + st.numSwitches ∨
     receiver_id < 0 ∨ receiver_id ≥ st.numEndSystems + st.numSwitches ∨
     path.length = 0 then
    (PATH_DOES_NOT_EXIST, st)
  else
    (0, { st with
      recv := fun s r =>
        if s = st.hash sender_id ∧ r = st.hash receiver_id then
          st.recv s r ++ [path]
        else
          st.recv s r })

/-- A two-end-system network with the identity end-system hash and no
stored paths, used to evaluate `get_path` on concrete inputs. -/
def examplePathStore : PathStore :=
  ⟨2, 0, Int.toNat, fun _ _ => []⟩

/-! ## Frame.c : the offset linked list and the start-time matrix -/

/-- Embedding of `add_new_offset` (Frame.c, lines 547-571) on the link
fields of the offset linked list.  The list always ends in the sentinel
node created by `init_frame` (link `-1`, null next pointer); an element of
the Lean list is a node's `link` field, the last element being the
sentinel.  The C loop walks while `next != NULL && node.link != link`;
at the sentinel (`next == NULL`), if its link differs, the sentinel is
turned into the new node and a fresh sentinel is appended and the new
node is returned; if a node with the link is found, NULL is returned and
nothing is inserted.  The result is the returned node's link (`none` for
NULL) and the updated list.  The empty list (a null root, which the C
would dereference) returns `(none, [])`. -/
def add_new_offset : List Int → Int → Option Int × List Int
  | [], _ => (none, [])
  | x :: rest, link =>
    if rest = [] then
      if x = link then (none, [x]) else (some link, [link, -1])
    else if x = link then
      (none, x :: rest)
    else
      ((add_new_offset rest link).1, x :: (add_new_offset rest link).2)

/-- The fields of the C `Offset` structure that `set_offset` / `get_offset`
(Frame.c) read: the declared bounds `num_instances`, `num_replicas` and the
start-time matrix `offset` (allocated by `prepare_offset` as
`num_instances` rows of `num_replicas` entries). -/
structure OffsetData where
  num_instances : Int
  num_replicas : Int
  offset : List (List Int)
deriving DecidableEq

/-- Embedding of `set_offset` (Frame.c, lines 646-675): the argument is
`none` for a null offset pointer; the checks run in the C order (null,
`num_instance < 0`, `num_replica < 0`, `num_instance >= num_instances`,
`num_replica >= num_replicas`, `value < 0`), each returning its error
code with the matrix untouched; otherwise the value is stored at
`offset[num_instance][num_replica]` and 0 is returned. -/
def set_offset (offset_pt : Option OffsetData) (num_instance num_replica value : Int) :
    Int × Option OffsetData :=
  match offset_pt with
  | none => (NULL_OFFSET_POINTER, none)
  | some o =>
    if num_instance < 0 then (NUM_INSTANCES_NOT_NATURAL, some o)
    else if num_replica < 0 then (NUM_REPLICAS_NEGATIVE, some o)
    else if num_instance ≥ o.num_instances then (NUM_INSTANCES_OUT_RANGE, some o)
    else if num_replica ≥ o.num_replicas then (NUM_REPLICAS_OUT_RANGE, some o)
    else if value < 0 then (TRANSMISSION_TIME_NOT_NATURAL, some o)
    else
      (0, some { o with
        offset := o.offset.set num_instance.toNat
          ((o.offset.getD num_instance.toNat []).set num_replica.toNat value) })

/-- Embedding of `get_offset` (Frame.c, lines 619-635): it rejects only a
null pointer, a negative `num_instance` and a negative `num_replica`, and
otherwise reads `offset[num_instance][num_replica]` without any upper
bound check (an out-of-range read is undefined behaviour in C; the
partial lookup models it as `none`). -/
def get_offset (offset_pt : Option OffsetData) (num_instance num_replica : Int) :
    Except Int (Option Int) :=
  match offset_pt with
  | none => Except.error NULL_OFFSET_POINTER
  | some o =>
    if num_instance < 0 then Except.error NUM_INSTANCES_NOT_NATURAL
    else if num_replica < 0 then Except.error NUM_REPLICAS_NEGATIVE
    else Except.ok ((o.offset.get? num_instance.toNat).bind fun row => row.get? num_replica.toNat)

/-- A fully allocated 2-instance, 2-replica offset for concrete
evaluation of `set_offset` and `get_offset`. -/
def exampleOffsetData : OffsetData :=
  ⟨2, 2, [[0, 0], [0, 0]]⟩

/-! ## Theorems -/

/-- Two half-open integer intervals with the code's pairwise test:
nonempty intervals intersect iff the test's disjunction holds. -/
theorem interval_test_iff (a b s1 d1 s2 d2 : Int) (h1 : s1 < d1) (h2 : s2 < d2) :
    ((a + s1 + 1 ≤ b + s2 + 1 ∧ b + s2 + 1 < a + d1 + 1) ∨
     (b + s2 + 1 ≤ a + s1 + 1 ∧ a + s1 + 1 < b + d2 + 1)) ↔
    ∃ t : Int, (a + s1 + 1 ≤ t ∧ t < a + d1 + 1) ∧ (b + s2 + 1 ≤ t ∧ t < b + d2 + 1) := by
  constructor
  · rintro (⟨hA, hB⟩ | ⟨hA, hB⟩)
    · exact ⟨b + s2 + 1, ⟨hA, hB⟩, ⟨le_refl _, by omega⟩⟩
    · exact ⟨a + s1 + 1, ⟨le_refl _, by omega⟩, ⟨hA, hB⟩⟩
  · rintro ⟨t, ⟨hA, hB⟩, ⟨hC, hD⟩⟩
    omega

/-- C1: for frames with `starting < deadline` (the Frame invariant
`starting ∈ [0, deadline)` enforced by `set_starting` / `set_deadline`),
`offsets_share_interval` returns 1 iff the half-open intervals
`[p1*i1+s1+1, p1*i1+d1+1)` and `[p2*i2+s2+1, p2*i2+d2+1)` intersect, and
the contention-freedom builder emits the pairwise non-overlap constraint
for the pair iff that test returns 1. -/
theorem offsets_share_interval_spec (p1 s1 d1 i1 p2 s2 d2 i2 : Int)
    (h1 : s1 < d1) (h2 : s2 < d2) :
    (offsets_share_interval p1 s1 d1 i1 p2 s2 d2 i2 = 1 ↔
      ∃ t : Int, (p1 * i1 + s1 + 1 ≤ t ∧ t < p1 * i1 + d1 + 1) ∧
                 (p2 * i2 + s2 + 1 ≤ t ∧ t < p2 * i2 + d2 + 1)) ∧
    (∀ (pathSel : Bool) (ts1 ts2 o1 o2 : Int),
      contention_pair_constraints pathSel p1 s1 d1 ts1 i1 p2 s2 d2 ts2 i2 o1 o2 ≠ [] ↔
      offsets_share_interval p1 s1 d1 i1 p2 s2 d2 i2 = 1) := by
  have key := interval_test_iff (p1 * i1) (p2 * i2) s1 d1 s2 d2 h1 h2
  constructor
  · unfold offsets_share_interval
    split
    case isTrue hc =>
      exact ⟨fun _ => key.mp hc, fun _ => rfl⟩
    case isFalse hc =>
      constructor
      · intro h10
        exact absurd h10 (by norm_num)
      · intro hex
        exact absurd (key.mpr hex) hc
  · intro pathSel ts1 ts2 o1 o2
    unfold contention_pair_constraints
    split
    case isTrue hc => simp [hc]
    case isFalse hc => simp [hc]

/-- C1 witness: concrete frames (`p = 2`, `s = 0`, `d = 1`, both at
instance 0) satisfying the invariant hypotheses. -/
theorem offsets_share_interval_spec_witness :
    ((0 : Int) < 1 ∧ (0 : Int) < 1) ∧
    ((offsets_share_interval 2 0 1 0 2 0 1 0 = 1 ↔
      ∃ t : Int, (2 * 0 + 0 + 1 ≤ t ∧ t < 2 * 0 + 1 + 1) ∧
                 (2 * 0 + 0 + 1 ≤ t ∧ t < 2 * 0 + 1 + 1)) ∧
    (∀ (pathSel : Bool) (ts1 ts2 o1 o2 : Int),
      contention_pair_constraints pathSel 2 0 1 ts1 0 2 0 1 ts2 0 o1 o2 ≠ [] ↔
      offsets_share_interval 2 0 1 0 2 0 1 0 = 1)) :=
  ⟨⟨by decide, by decide⟩,
   offsets_share_interval_spec 2 0 1 0 2 0 1 0 (by decide) (by decide)⟩

/-- C2 counterexample: with `starting = 0`, `period = 10`, `instance = 1`,
`deadline = 10`, `timeslots = 1` and path selection inactive, the ILP
backend accepts the offset value 5 (its emitted bounds are the constant
lower bound 1 and the upper bound), although 5 lies outside the claimed
range `[starting + i*period + 1, deadline - timeslots + i*period] = [11, 19]`. -/
theorem set_offset_range_counterexample :
    set_offset_range_gurobi false (offset_min_time 0 10 1) (offset_max_time 10 1 10 1) 5 ∧
    ¬ offset_range_claimed 0 10 10 1 1 5 := by
  constructor
  · constructor
    · decide
    · decide
  · intro h
    exact absurd h.1 (by decide)

/-- C2 (amended): with path selection inactive and the bounds computed by
`create_offset_variables`, the SMT backend constrains the offset to
exactly the claimed range `[starting + i*period + 1,
deadline - timeslots + i*period]`, while the ILP backend constrains it
only to `[1, deadline - timeslots + i*period]` (constant lower bound 1,
the computed minimum being ignored). -/
theorem set_offset_range_spec (starting period deadline timeslots i o : Int) :
    (set_offset_range_z3 false (offset_min_time starting period i)
        (offset_max_time deadline timeslots period i) o ↔
      starting + i * period + 1 ≤ o ∧ o ≤ deadline - timeslots + i * period) ∧
    (set_offset_range_gurobi false (offset_min_time starting period i)
        (offset_max_time deadline timeslots period i) o ↔
      1 ≤ o ∧ o ≤ deadline - timeslots + i * period) := by
  unfold set_offset_range_z3 set_offset_range_gurobi offset_min_time offset_max_time
  constructor
  · constructor
    · rintro ⟨hlo | ⟨hfalse, _⟩, hhi⟩
      · constructor
        · have : starting + period * i < o := hlo
          nlinarith [this]
        · nlinarith [hhi]
      · exact absurd hfalse (by decide)
    · rintro ⟨hlo, hhi⟩
      refine ⟨Or.inl ?_, ?_⟩
      · show starting + period * i < o
        nlinarith [hlo]
      · nlinarith [hhi]
  · constructor
    · rintro ⟨hlo, hhi⟩
      refine ⟨by simpa using hlo, by nlinarith [hhi]⟩
    · rintro ⟨hlo, hhi⟩
      exact ⟨by simpa using hlo, by nlinarith [hhi]⟩

/-- C3: for every `(i, r) ≠ (0, 0)` the builder links the offset variable
to the base one: without path selection the asserted formula is exactly
`O[f,l,i,r] = O[f,l,0,0] + i * period`, and with path selection it is the
conditional `if O[f,l,0,0] = 0 then O[f,l,i,r] = 0 else` that equality. -/
theorem create_offset_linkage_spec (period i r o00 oir : Int) (h : ¬(i = 0 ∧ r = 0)) :
    (create_offset_linkage false period i r o00 oir ↔ oir = o00 + i * period) ∧
    (create_offset_linkage true period i r o00 oir ↔
      if o00 = 0 then oir = 0 else oir = o00 + i * period) := by
  have hg : i ≠ 0 ∨ r ≠ 0 := by tauto
  unfold create_offset_linkage set_fixed_distance_z3
  rw [if_pos hg, if_pos hg]
  constructor
  · rw [if_neg (by simp)]
    constructor
    · intro he
      rw [he]; ring
    · intro he
      rw [he]; ring
  · by_cases h0 : o00 = 0
    · rw [if_pos ⟨rfl, h0⟩, if_pos h0]
    · rw [if_neg (by simp [h0]), if_neg h0]
      constructor
      · intro he
        rw [he]; ring
      · intro he
        rw [he]; ring

/-- C3 witness: instance 2, replica 0, period 10, base offset 3. -/
theorem create_offset_linkage_spec_witness :
    (¬((2 : Int) = 0 ∧ (0 : Int) = 0)) ∧
    ((create_offset_linkage false 10 2 0 3 23 ↔ (23 : Int) = 3 + 2 * 10) ∧
     (create_offset_linkage true 10 2 0 3 23 ↔
       if (3 : Int) = 0 then (23 : Int) = 0 else (23 : Int) = 3 + 2 * 10)) :=
  ⟨by decide, create_offset_linkage_spec 10 2 0 3 23 (by decide)⟩

/-- C4 counterexample: for a consecutive link pair with `timeslots = 4`,
`switch_minimum_time = 1`, previous offset 0, next offset 5 and frame
distance 0, the claimed non-strict inequality
`O_next >= O_prev + timeslots + switch_minimum_time` holds (5 >= 5) but
the ILP backend's emitted constraint rejects the assignment. -/
theorem frame_path_dependent_counterexample :
    ((5 : Int) ≥ 0 + frame_path_dependent_distance 4 1) ∧
    ¬ set_minimum_distance_gurobi false 0 5 0 (frame_path_dependent_distance 4 1) 0 := by
  constructor
  · decide
  · intro h
    exact absurd (h.1 rfl) (by decide)

/-- C4 (amended): for every consecutive link pair the SMT backend asserts
exactly the claimed non-strict inequality
`O_next >= O_prev + timeslots + switch_minimum_time`, while the ILP
backend asserts `O_next - O_prev - D_f >= timeslots + switch_minimum_time
+ 1`, i.e. the strictly stronger
`O_next >= O_prev + timeslots + switch_minimum_time + 1 + D_f` with the
per-frame distance variable added. -/
theorem frame_path_dependent_spec (oj ojn Df timeslots swmin xsel : Int) :
    (set_minimum_distance_z3 false oj ojn (frame_path_dependent_distance timeslots swmin) xsel ↔
      ojn ≥ oj + timeslots + swmin) ∧
    (set_minimum_distance_gurobi false oj ojn Df (frame_path_dependent_distance timeslots swmin)
        xsel ↔
      ojn ≥ oj + timeslots + swmin + 1 + Df) := by
  unfold set_minimum_distance_z3 set_minimum_distance_gurobi frame_path_dependent_distance
  constructor
  · constructor
    · rintro (hle | ⟨hfalse, _⟩)
      · omega
      · exact absurd hfalse (by decide)
    · intro hle
      exact Or.inl (by omega)
  · constructor
    · intro h
      have := h.1 rfl
      omega
    · intro h
      exact ⟨fun _ => by omega, fun htrue => absurd htrue (by decide)⟩

/-- C5: the end-to-end builder passes
`distance = end_to_end(f) - timeslots(o_last)` to `set_maximum_distance`;
the SMT assertion is then equivalent to
`O_last + timeslots(o_last) - O_first <= end_to_end(f)`, and the ILP
assertion (which conjoins two further frame-distance constraints) implies
that same bound. -/
theorem frame_end_to_end_delay_spec (ofs ol timeslots_last delay Df starting deadline xsel : Int) :
    (set_maximum_distance_z3 ofs ol (frame_end_to_end_distance delay timeslots_last) ↔
      ol + timeslots_last - ofs ≤ delay) ∧
    (set_maximum_distance_gurobi false xsel ofs ol Df
        (frame_end_to_end_distance delay timeslots_last) starting deadline →
      ol + timeslots_last - ofs ≤ delay) := by
  unfold set_maximum_distance_z3 set_maximum_distance_gurobi frame_end_to_end_distance
  constructor
  · constructor
    · intro h
      omega
    · intro h
      omega
  · intro h
    have := (h.1 rfl).1
    omega

/-- C5 witness: first offset 0, last offset 2, last timeslots 1,
end-to-end 5, frame distance 0 — the ILP emission holds and so does the
claimed end-to-end bound. -/
theorem frame_end_to_end_delay_spec_witness :
    ((set_maximum_distance_z3 0 2 (frame_end_to_end_distance 5 1) ↔
      (2 : Int) + 1 - 0 ≤ 5) ∧
     (set_maximum_distance_gurobi false 0 0 2 0 (frame_end_to_end_distance 5 1) 0 3 →
      (2 : Int) + 1 - 0 ≤ 5)) ∧
    set_maximum_distance_gurobi false 0 0 2 0 (frame_end_to_end_distance 5 1) 0 3 ∧
    (2 : Int) + 1 - 0 ≤ 5 :=
  ⟨frame_end_to_end_delay_spec 0 2 1 5 0 0 3 0,
   ⟨⟨fun _ => by decide, fun h => absurd h (by decide)⟩,
    (frame_end_to_end_delay_spec 0 2 1 5 0 0 3 0).2
      ⟨fun _ => by decide, fun h => absurd h (by decide)⟩⟩⟩

/-- C6 counterexample: with path selection active, `o1 = 1`, `o2 = 0` and
both transmission durations 2, the claimed extended assertion (with both
disjuncts `o1 = 0` and `o2 = 0`) is satisfied because `o2 = 0`, yet
neither backend's emitted assertion is: the SMT backend only added the
disjunct `o1 = 0` and the ILP backend only `o2 + o1 = 0`. -/
theorem avoid_intersection_counterexample :
    avoid_intersection_claimed 1 0 2 2 ∧
    ¬ avoid_intersection_z3 true 1 0 2 2 ∧
    ¬ avoid_intersection_gurobi true 1 0 2 2 0 := by
  refine ⟨Or.inr (Or.inr rfl), ?_, ?_⟩
  · rintro ((h | h) | ⟨_, h⟩) <;> revert h <;> decide
  · rintro ((h | h) | ⟨_, h⟩) <;> revert h <;> decide

/-- C6 (amended): under path selection the pairwise non-overlap assertion
is extended by exactly one extra disjunct per backend — `O[f1,l,i1,r1] = 0`
in the SMT backend, and `O[f1] + O[f2] = 0` (both offsets simultaneously
zero, the offsets being non-negative there) in the ILP backend; in
particular each emitted assertion implies the claimed two-disjunct form
but not conversely. -/
theorem avoid_intersection_path_spec (o1 o2 d1 d2 Dl : Int) (h1 : 0 ≤ o1) (h2 : 0 ≤ o2) :
    (avoid_intersection_z3 true o1 o2 d1 d2 ↔
      ((o1 + d1 ≤ o2 ∨ o2 + d2 ≤ o1) ∨ o1 = 0)) ∧
    (avoid_intersection_gurobi true o1 o2 d1 d2 Dl ↔
      ((o1 + d1 + Dl ≤ o2 ∨ o2 + d2 + Dl ≤ o1) ∨ (o1 = 0 ∧ o2 = 0))) ∧
    (avoid_intersection_z3 true o1 o2 d1 d2 → avoid_intersection_claimed o1 o2 d1 d2) := by
  unfold avoid_intersection_z3 avoid_intersection_gurobi avoid_intersection_claimed
  refine ⟨?_, ?_, ?_⟩
  · constructor
    · rintro (h | ⟨_, h⟩)
      · exact Or.inl h
      · exact Or.inr h
    · rintro (h | h)
      · exact Or.inl h
      · exact Or.inr ⟨rfl, h⟩
  · constructor
    · rintro (h | ⟨_, h⟩)
      · exact Or.inl h
      · exact Or.inr (by omega)
    · rintro (h | h)
      · exact Or.inl h
      · exact Or.inr ⟨rfl, by omega⟩
  · rintro (h | ⟨_, h⟩)
    · exact Or.inl h
    · exact Or.inr (Or.inl h)

/-- C6 witness: non-negative offsets `o1 = 3`, `o2 = 9`, durations 2,
link distance 0. -/
theorem avoid_intersection_path_spec_witness :
    ((0 : Int) ≤ 3 ∧ (0 : Int) ≤ 9) ∧
    ((avoid_intersection_z3 true 3 9 2 2 ↔
      (((3 : Int) + 2 ≤ 9 ∨ (9 : Int) + 2 ≤ 3) ∨ (3 : Int) = 0)) ∧
     (avoid_intersection_gurobi true 3 9 2 2 0 ↔
      (((3 : Int) + 2 + 0 ≤ 9 ∨ (9 : Int) + 2 + 0 ≤ 3) ∨ ((3 : Int) = 0 ∧ (9 : Int) = 0))) ∧
     (avoid_intersection_z3 true 3 9 2 2 → avoid_intersection_claimed 3 9 2 2)) :=
  ⟨⟨by decide, by decide⟩, avoid_intersection_path_spec 3 9 2 2 0 (by decide) (by decide)⟩

/-- C7: evaluating the distance initializer at the failing input.  With
optimization disabled (weights 5 and 7, entered in sync at counter 0),
on the minimal network of 1 frame (end-to-end 3) and 1 link
(hyperperiod 4): the frame distance variable (column 0) gets objective
coefficient 0 and a correctly targeted `= 0` equality, but the link
distance variable is created as column 1 while its equality targets
column 2 — a column that does not exist at that point (only columns 0
and 1 do) — so the link distance variable is not constrained to 0.
With 2 frames, the second frame's distance variable (column 1) likewise
gets its equality aimed at column 2.  The cause is the spurious
`gurobi_var_counter++` after each `GRBaddconstr`. -/
theorem init_distances_counter_desync :
    (init_distances 0 5 7 1 1 (fun _ => 3) 4 0 0).1 = [⟨0, 0, 0, 3, some 0⟩] ∧
    (init_distances 0 5 7 1 1 (fun _ => 3) 4 0 0).2 = [⟨2, 1, 0, 4, some 2⟩] ∧
    (∀ v ∈ (init_distances 0 5 7 1 1 (fun _ => 3) 4 0 0).2,
      v.eqTarget ≠ some v.trueIdx) ∧
    (init_distances 0 5 7 2 1 (fun _ => 3) 4 0 0).1 =
      [⟨0, 0, 0, 3, some 0⟩, ⟨2, 1, 0, 3, some 2⟩] := by
  decide

/-- C8: evaluating `get_path` on the failing input.  In a two-end-system
network, `add_path` stores one path from end system 0 to end system 1
(return code 0, the `(0, 1)` path list then has length 1), yet
`get_path(0, 1, 0)` — an in-range index by the claim — returns NULL: the
comparison `num_paths >= path_id` fires for every index
`0 <= path_id <= num_paths`. -/
theorem get_path_rejects_stored_path :
    (add_path examplePathStore 0 1 [5, 6]).1 = 0 ∧
    ((add_path examplePathStore 0 1 [5, 6]).2.recv 0 1).length = 1 ∧
    get_path (add_path examplePathStore 0 1 [5, 6]).2 0 1 0 = none := by
  refine ⟨rfl, rfl, ?_⟩
  decide

/-- For `link ≠ -1` (the sentinel marker), walking the sentinel-terminated
list either finds the link and changes nothing, returning NULL, or turns
the sentinel into the new node and appends a fresh sentinel. -/
theorem add_new_offset_eq (link : Int) (h : link ≠ -1) (nodes : List Int) :
    add_new_offset (nodes ++ [-1]) link =
      if link ∈ nodes then (none, nodes ++ [-1]) else (some link, nodes ++ [link, -1]) := by
  induction nodes with
  | nil =>
    simp [add_new_offset, Ne.symm h]
  | cons x xs ih =>
    have hrest : xs ++ [-1] ≠ ([] : List Int) := by simp
    by_cases hx : x = link
    · subst hx
      simp [add_new_offset, hrest]
    · by_cases hm : link ∈ xs
      · simp [add_new_offset, hrest, hx, Ne.symm hx, hm, ih]
      · simp [add_new_offset, hrest, hx, Ne.symm hx, hm, ih]

/-- C9 counterexample: on a collection already holding an offset for
link 3, repeated insertion of link 3 performs no insertion (the list is
unchanged) but returns NULL (`none`), not the existing offset. -/
theorem add_new_offset_duplicate_counterexample :
    (add_new_offset [3, -1] 3).2 = [3, -1] ∧ (add_new_offset [3, -1] 3).1 = none := by
  decide

/-- C9 (amended): `add_new_offset` de-duplicates by link — if an offset
for the link is already present it performs no insertion and returns NULL
(the already-exists marker of the `@return` contract), not the existing
offset; if the link is absent it creates and returns a new offset for it;
and a collection holding at most one offset per link still does so
afterwards. -/
theorem add_new_offset_spec (nodes : List Int) (link : Int) (h : link ≠ -1) :
    (link ∈ nodes → add_new_offset (nodes ++ [-1]) link = (none, nodes ++ [-1])) ∧
    (link ∉ nodes → add_new_offset (nodes ++ [-1]) link = (some link, nodes ++ [link, -1])) ∧
    ((∀ l : Int, nodes.count l ≤ 1) →
      ∀ l : Int, ((add_new_offset (nodes ++ [-1]) link).2.dropLast).count l ≤ 1) := by
  refine ⟨?_, ?_, ?_⟩
  · intro hm
    rw [add_new_offset_eq link h nodes, if_pos hm]
  · intro hm
    rw [add_new_offset_eq link h nodes, if_neg hm]
  · intro hcount l
    rw [add_new_offset_eq link h nodes]
    by_cases hm : link ∈ nodes
    · rw [if_pos hm]
      show ((nodes ++ [-1]).dropLast).count l ≤ 1
      rw [List.dropLast_concat]
      exact hcount l
    · rw [if_neg hm]
      show ((nodes ++ [link, -1]).dropLast).count l ≤ 1
      have hdl : (nodes ++ [link, -1]).dropLast = nodes ++ [link] := by
        rw [show nodes ++ [link, -1] = (nodes ++ [link]) ++ [-1] from by simp]
        exact List.dropLast_concat
      rw [hdl, List.count_append]
      by_cases hl : l = link
      · subst hl
        have h0 : nodes.count l = 0 := List.count_eq_zero_of_not_mem hm
        have h1 : List.count l [l] = 1 := by simp
        omega
      · have h0 : List.count l [link] = 0 :=
          List.count_eq_zero_of_not_mem (by simp [hl])
        have h1 := hcount l
        omega

/-- C9 witness: inserting link 5 into a collection holding only link 3
creates and returns the new offset. -/
theorem add_new_offset_spec_witness :
    ((5 : Int) ≠ -1) ∧ ((5 : Int) ∉ ([3] : List Int)) ∧
    add_new_offset ([3] ++ [-1]) 5 = (some 5, [3] ++ [5, -1]) :=
  ⟨by decide, by decide, (add_new_offset_spec [3] 5 (by decide)).2.1 (by decide)⟩

/-- C10: for an offset whose start-time matrix is allocated with bounds
`num_instances × num_replicas`, `set_offset` returns 0 and stores the
value at `(i, r)` iff `0 ≤ i < num_instances`, `0 ≤ r < num_replicas` and
`0 ≤ v`; in every other case (including the null pointer) it returns a
negative error code and leaves the matrix unchanged; and `get_offset`
succeeds iff `0 ≤ i ∧ 0 ≤ r` — it performs no upper-bound check. -/
theorem set_offset_spec (o : OffsetData) (i r v : Int)
    (hlen : o.offset.length = o.num_instances.toNat)
    (hrow : ∀ row ∈ o.offset, row.length = o.num_replicas.toNat) :
    ((set_offset (some o) i r v).1 = 0 ↔
      0 ≤ i ∧ i < o.num_instances ∧ 0 ≤ r ∧ r < o.num_replicas ∧ 0 ≤ v) ∧
    ((set_offset (some o) i r v).1 = 0 →
      ∃ o2 : OffsetData, (set_offset (some o) i r v).2 = some o2 ∧
        (o2.offset.get? i.toNat).bind (fun row => row.get? r.toNat) = some v) ∧
    ((set_offset (some o) i r v).1 ≠ 0 →
      (set_offset (some o) i r v).1 < 0 ∧ (set_offset (some o) i r v).2 = some o) ∧
    set_offset none i r v = (NULL_OFFSET_POINTER, none) ∧
    ((∃ res, get_offset (some o) i r = Except.ok res) ↔ 0 ≤ i ∧ 0 ≤ r) := by
  refine ⟨?_, ?_, ?_, rfl, ?_⟩
  · simp only [set_offset]
    split_ifs with h1 h2 h3 h4 h5 <;>
      simp [NUM_INSTANCES_NOT_NATURAL, NUM_REPLICAS_NEGATIVE, NUM_INSTANCES_OUT_RANGE,
        NUM_REPLICAS_OUT_RANGE, TRANSMISSION_TIME_NOT_NATURAL] <;>
      omega
  · intro h0
    simp only [set_offset] at h0 ⊢
    split_ifs at h0 ⊢ with h1 h2 h3 h4 h5
    · exact absurd h0 (by decide : ¬(NUM_INSTANCES_NOT_NATURAL = (0 : Int)))
    · exact absurd h0 (by decide : ¬(NUM_REPLICAS_NEGATIVE = (0 : Int)))
    · exact absurd h0 (by decide : ¬(NUM_INSTANCES_OUT_RANGE = (0 : Int)))
    · exact absurd h0 (by decide : ¬(NUM_REPLICAS_OUT_RANGE = (0 : Int)))
    · exact absurd h0 (by decide : ¬(TRANSMISSION_TIME_NOT_NATURAL = (0 : Int)))
    · refine ⟨_, rfl, ?_⟩
      have hi : i.toNat < o.offset.length := by omega
      have hrowEq : o.offset.getD i.toNat [] = o.offset[i.toNat] := by
        rw [List.getD_eq_getElem?_getD, List.getElem?_eq_getElem hi]
        rfl
      have hlenRow : (o.offset.getD i.toNat []).length = o.num_replicas.toNat := by
        rw [hrowEq]
        exact hrow _ (List.getElem_mem hi)
      have hr : r.toNat < (o.offset.getD i.toNat []).length := by
        rw [hlenRow]
        omega
      rw [List.get?_eq_getElem?,
        List.getElem?_set_eq_of_lt _ (by simpa using hi)]
      simp only [Option.some_bind]
      rw [List.get?_eq_getElem?, List.getElem?_set_eq_of_lt _ hr]
  · intro hne
    simp only [set_offset] at hne ⊢
    split_ifs at hne ⊢ with h1 h2 h3 h4 h5
    · exact ⟨(by decide : NUM_INSTANCES_NOT_NATURAL < 0), rfl⟩
    · exact ⟨(by decide : NUM_REPLICAS_NEGATIVE < 0), rfl⟩
    · exact ⟨(by decide : NUM_INSTANCES_OUT_RANGE < 0), rfl⟩
    · exact ⟨(by decide : NUM_REPLICAS_OUT_RANGE < 0), rfl⟩
    · exact ⟨(by decide : TRANSMISSION_TIME_NOT_NATURAL < 0), rfl⟩
    · exact absurd rfl hne
  · simp only [get_offset]
    split_ifs with h1 h2
    · constructor
      · rintro ⟨res, hres⟩
        exact hres.elim
      · intro hok
        omega
    · constructor
      · rintro ⟨res, hres⟩
        exact hres.elim
      · intro hok
        omega
    · constructor
      · intro _
        omega
      · intro _
        exact ⟨_, rfl⟩

/-- C10 witness: a 2×2 allocated matrix, storing 7 at position (1, 1). -/
theorem set_offset_spec_witness :
    (exampleOffsetData.offset.length = exampleOffsetData.num_instances.toNat) ∧
    (∀ row ∈ exampleOffsetData.offset, row.length = exampleOffsetData.num_replicas.toNat) ∧
    (((set_offset (some exampleOffsetData) 1 1 7).1 = 0 ↔
      0 ≤ (1 : Int) ∧ (1 : Int) < exampleOffsetData.num_instances ∧
        0 ≤ (1 : Int) ∧ (1 : Int) < exampleOffsetData.num_replicas ∧ 0 ≤ (7 : Int)) ∧
    ((set_offset (some exampleOffsetData) 1 1 7).1 = 0 →
      ∃ o2 : OffsetData, (set_offset (some exampleOffsetData) 1 1 7).2 = some o2 ∧
        (o2.offset.get? (1 : Int).toNat).bind (fun row => row.get? (1 : Int).toNat) = some 7) ∧
    ((set_offset (some exampleOffsetData) 1 1 7).1 ≠ 0 →
      (set_offset (some exampleOffsetData) 1 1 7).1 < 0 ∧
        (set_offset (some exampleOffsetData) 1 1 7).2 = some exampleOffsetData) ∧
    set_offset none 1 1 7 = (NULL_OFFSET_POINTER, none) ∧
    ((∃ res, get_offset (some exampleOffsetData) 1 1 = Except.ok res) ↔
      0 ≤ (1 : Int) ∧ 0 ≤ (1 : Int))) :=
  ⟨by decide, by decide, set_offset_spec exampleOffsetData 1 1 7 (by decide) (by decide)⟩

end OrganicScheduler
